import Mathlib

/-!
Shallow embedding of library/deploy_with_rollback.py (the custom Ansible
module deploy_with_rollback of lesson 267-ansible-advanced-automation).

Modelling conventions.

The filesystem under app_path is modelled by FSState: the list of
directories under releases/ together with their mtimes (os.listdir order is
the list order), and the state of the app_path/current entry (absent, a
symlink recorded by the version its target path ends in, or a plain
directory).

External effects (wget, tar, systemctl, the HTTP probe, shutil.rmtree) are
oracles in Env; every external invocation is also appended to St.events, so
that theorems can state that a step was or was not invoked.

AnsibleModule.fail_json raises SystemExit, which does not derive from
Exception and therefore is not caught by the except-clause of deploy; it is
modelled as Except.error that short-circuits the run.

The health-check polling loop of health_check is abstracted to its outcome:
Env.healthProbe says whether some probe observes an HTTP 200 response
within the timeout window.

OS failures of the primitive link operations (os.remove, os.symlink,
os.makedirs) are not modelled, they are assumed to succeed; a failure of
shutil.rmtree in the cleanup loop is modelled through Env.rmtreeFails,
since the cleanup behaviour depends on it.
-/

/-- State of the app_path/current filesystem entry. -/
inductive Curr where
  | absent : Curr
  | link : String → Curr
  | dir : Curr
deriving Repr, DecidableEq

/-- Filesystem under app_path: the releases/ directory entries with their
mtimes, and the current entry. -/
structure FSState where
  releases : List (String × Nat)
  curr : Curr
deriving Repr, DecidableEq

/-- One external invocation performed by the module. -/
inductive Event where
  | wget : Event
  | tar : Event
  | systemctl : Event
  | probe : Event
  | symlinkSwitch : String → Event
  | rmtreeEv : String → Event
deriving Repr, DecidableEq

/-- Full machine state threaded through the deployer: the filesystem, the
self.changed flag, and the log of external invocations. -/
structure St where
  fs : FSState
  changed : Bool
  events : List Event
deriving Repr, DecidableEq

/-- Module parameters after AnsibleModule processing (main, lines 352-366):
options with a default are plain values, options without one are optional. -/
structure Params where
  app_name : String
  app_path : String
  version : String
  artifact_url : Option String
  health_check_url : String
  health_check_timeout : Nat
  rollback_on_failure : Bool
  keep_versions : Nat
  service_name : Option String
deriving Repr, DecidableEq

/-- Caller-supplied options before default resolution. -/
structure RawParams where
  app_name : String
  app_path : String
  version : String
  artifact_url : Option String
  health_check_url : Option String
  health_check_timeout : Option Nat
  rollback_on_failure : Option Bool
  keep_versions : Option Nat
  service_name : Option String
deriving Repr, DecidableEq

/-- Default resolution of the argument_spec in main (lines 353-364):
health_check_url defaults to the localhost URL, health_check_timeout to 300,
rollback_on_failure to true, keep_versions to 5; artifact_url and
service_name have no default. -/
def resolveParams (r : RawParams) : Params :=
  { app_name := r.app_name
    app_path := r.app_path
    version := r.version
    artifact_url := r.artifact_url
    health_check_url := r.health_check_url.getD "http://localhost:8080/health"
    health_check_timeout := r.health_check_timeout.getD 300
    rollback_on_failure := r.rollback_on_failure.getD true
    keep_versions := r.keep_versions.getD 5
    service_name := r.service_name }

/-- Oracle for the external world: outcomes of wget, tar, systemctl restart,
systemctl is-active, the HTTP health probe, shutil.rmtree per directory, and
the mtime stamped on a directory created now. -/
structure Env where
  downloadOk : Bool
  extractOk : Bool
  restartOk : Bool
  isActiveOk : Bool
  healthProbe : Bool
  rmtreeFails : String → Bool
  now : Nat

/-- Python truthiness of an optional string: None and the empty string are
falsy, every other string is truthy. -/
def optTruthy : Option String → Bool
  | none => false
  | some s => s != ""

/-- Whether the directory releases/(v) exists. -/
def FSState.hasRelease (fs : FSState) (v : String) : Bool :=
  fs.releases.any (fun r => r.1 == v)

/-- get_current_version, lines 133-139: basename of the symlink target when
current is a symlink, None otherwise. -/
def get_current_version (fs : FSState) : Option String :=
  match fs.curr with
  | Curr.link v => some v
  | _ => none

/-- The result record built by deploy (lines 338-347); previous_version is
none when the key is not set. -/
structure DeployResult where
  changed : Bool
  version_deployed : Option String
  rollback_occurred : Bool
  health_check_status : String
  previous_version : Option String
deriving Repr, DecidableEq

/-- download_artifact, lines 141-175: no-op when artifact_url is falsy or
the version directory already exists; otherwise makedirs, then wget, then
tar, calling fail_json (modelled as Except.error) on a failed step without
removing the directory created for this attempt. -/
def download_artifact (p : Params) (env : Env) (st : St) : St × Except String Unit :=
  if optTruthy p.artifact_url = false then (st, Except.ok ())
  else if st.fs.hasRelease p.version then (st, Except.ok ())
  else
    let st1 : St :=
      { st with fs := { st.fs with releases := st.fs.releases ++ [(p.version, env.now)] } }
    let st2 : St := { st1 with events := st1.events ++ [Event.wget] }
    if env.downloadOk = false then (st2, Except.error "Failed to download artifact")
    else
      let st3 : St := { st2 with events := st2.events ++ [Event.tar] }
      if env.extractOk = false then (st3, Except.error "Failed to extract artifact")
      else ({ st3 with changed := true }, Except.ok ())

/-- A primitive filesystem step of the pointer switch. -/
inductive FsOp where
  | removeLink : FsOp
  | rmtreeCurrent : FsOp
  | symlinkTo : String → FsOp
deriving Repr, DecidableEq

/-- The primitive steps of the pointer switch in program order
(create_symlink lines 182-187, and the identical inline sequence of
rollback lines 244-249): first remove the existing current entry, then
create the new symlink. -/
def switchOps (target : String) (fs : FSState) : List FsOp :=
  (match fs.curr with
   | Curr.link _ => [FsOp.removeLink]
   | Curr.dir => [FsOp.rmtreeCurrent]
   | Curr.absent => []) ++ [FsOp.symlinkTo target]

/-- Effect of one primitive switch step on the filesystem. -/
def applyFsOp (fs : FSState) : FsOp → FSState
  | FsOp.removeLink => { fs with curr := Curr.absent }
  | FsOp.rmtreeCurrent => { fs with curr := Curr.absent }
  | FsOp.symlinkTo v => { fs with curr := Curr.link v }

/-- All states reached while running a list of switch steps, the initial and
final states included. -/
def traceStates (fs : FSState) : List FsOp → List FSState
  | [] => [fs]
  | op :: ops => fs :: traceStates (applyFsOp fs op) ops

/-- Every filesystem state observable during the pointer switch. -/
def switchTrace (target : String) (fs : FSState) : List FSState :=
  traceStates fs (switchOps target fs)

/-- Final filesystem state of the pointer switch. -/
def switchFs (target : String) (fs : FSState) : FSState :=
  (switchOps target fs).foldl applyFsOp fs

/-- create_symlink, lines 177-188: run the switch steps, set self.changed. -/
def create_symlink (p : Params) (st : St) : St :=
  { st with
      fs := switchFs p.version st.fs
      changed := true
      events := st.events ++ [Event.symlinkSwitch p.version] }

/-- restart_service, lines 190-211: True without any call when service_name
is falsy; otherwise systemctl restart, then systemctl is-active decides. -/
def restart_service (p : Params) (env : Env) (st : St) : St × Bool :=
  if optTruthy p.service_name = false then (st, true)
  else
    let st1 : St := { st with events := st.events ++ [Event.systemctl] }
    if env.restartOk = false then (st1, false)
    else (st1, env.isActiveOk)

/-- health_check, lines 213-231: immediate success without a request when
health_check_url is falsy; otherwise the polling loop, abstracted to
whether a 200 response is observed within the timeout. -/
def health_check (p : Params) (env : Env) (st : St) : St × (Bool × String) :=
  if p.health_check_url = "" then (st, (true, "No health check URL provided"))
  else
    let st1 : St := { st with events := st.events ++ [Event.probe] }
    if env.healthProbe then (st1, (true, "Health check passed"))
    else (st1, (false, "Health check failed"))

/-- rollback, lines 233-254: False when previous_version is falsy or its
directory is gone; otherwise remove-then-create the current symlink, call
restart_service discarding its result (line 252), and return True. -/
def rollback (p : Params) (env : Env) (st : St) (previous : Option String) : St × Bool :=
  if optTruthy previous = false then (st, false)
  else
    let pv := previous.getD ""
    if st.fs.hasRelease pv = false then (st, false)
    else
      let st1 : St :=
        { st with
            fs := switchFs pv st.fs
            events := st.events ++ [Event.symlinkSwitch pv] }
      let r := restart_service p env st1
      (r.1, true)

/-- Stable insertion for descending mtime order (versions.sort by mtime with
reverse true, line 272). -/
def insertByMtime (x : String × Nat) : List (String × Nat) → List (String × Nat)
  | [] => [x]
  | y :: ys => if y.2 ≤ x.2 then x :: y :: ys else y :: insertByMtime x ys

/-- Sort the release directories newest first by mtime, stably. -/
def sortByMtimeDesc : List (String × Nat) → List (String × Nat)
  | [] => []
  | x :: xs => insertByMtime x (sortByMtimeDesc xs)

/-- The deletion loop of cleanup_old_versions, lines 275-277: shutil.rmtree
on each entry past the keep window; an OSError from rmtree is caught
nowhere, so it aborts the loop and propagates. -/
def deleteOldLoop (env : Env) : List (String × Nat) → St → St × Except String Unit
  | [], st => (st, Except.ok ())
  | (v, _) :: rest, st =>
    let st1 : St := { st with events := st.events ++ [Event.rmtreeEv v] }
    if env.rmtreeFails v then (st1, Except.error ("shutil.rmtree failed: " ++ v))
    else
      deleteOldLoop env rest
        { st1 with fs := { st1.fs with releases := st1.fs.releases.filter (fun r => r.1 != v) } }

/-- cleanup_old_versions, lines 256-277: keep the keep_versions newest
directories by mtime, delete every other one, with no exclusion for the
directory the current symlink points to. The early return when the
releases directory is missing coincides with the empty-list case. -/
def cleanup_old_versions (p : Params) (env : Env) (st : St) : St × Except String Unit :=
  deleteOldLoop env ((sortByMtimeDesc st.fs.releases).drop p.keep_versions) st

/-- Lines 333-349 of deploy: the unconditional cleanup, then the result
record; an uncaught rmtree error escapes deploy (and main) instead of
producing a record. -/
def finishDeploy (p : Params) (env : Env) (st : St) (current_version : Option String)
    (rollback_occurred : Bool) (status : String) : St × Except String DeployResult :=
  let c := cleanup_old_versions p env st
  match c.2 with
  | Except.error m => (c.1, Except.error m)
  | Except.ok _ =>
    (c.1, Except.ok
      { changed := c.1.changed
        version_deployed := if rollback_occurred then current_version else some p.version
        rollback_occurred := rollback_occurred
        health_check_status := status
        previous_version :=
          if rollback_occurred && optTruthy current_version then current_version else none })

/-- The except-branch of deploy, lines 323-331: rollback when enabled and a
truthy previous version is known, then fall through to cleanup and the
record; otherwise fail_json, which skips cleanup. -/
def exceptHandler (p : Params) (env : Env) (st : St) (current_version : Option String)
    (msg : String) : St × Except String DeployResult :=
  if p.rollback_on_failure && optTruthy current_version then
    let rb := rollback p env st current_version
    if rb.2 then
      finishDeploy p env rb.1 current_version true
        ("Deployment failed: " ++ msg ++ " - Rolled back")
    else
      finishDeploy p env rb.1 current_version false
        ("Deployment failed: " ++ msg ++ " - Rollback failed")
  else (st, Except.error ("Deployment failed: " ++ msg))

/-- Lines 312-321 of deploy: the health check and, on failure with
rollback_on_failure set, the rollback attempt and its status narrative. -/
def deployHealth (p : Params) (env : Env) (st3 : St) (current_version : Option String) :
    St × Except String DeployResult :=
  let hc := health_check p env st3
  if !hc.2.1 && p.rollback_on_failure then
    let rb := rollback p env hc.1 current_version
    if rb.2 then
      finishDeploy p env rb.1 current_version true
        (hc.2.2 ++ " - Rolled back to previous version")
    else
      finishDeploy p env rb.1 current_version false
        (hc.2.2 ++ " - Rollback failed")
  else finishDeploy p env hc.1 current_version false hc.2.2

/-- Lines 308-311 of deploy: the service restart; its failure raises the
only Exception of the try-block (line 310), landing in the except-branch. -/
def deploySwitched (p : Params) (env : Env) (st2 : St) (current_version : Option String) :
    St × Except String DeployResult :=
  let rs := restart_service p env st2
  if rs.2 = false then
    exceptHandler p env rs.1 current_version "Failed to restart service"
  else deployHealth p env rs.1 current_version

/-- Lines 301-321 of deploy: staging then the switch. fail_json inside
download_artifact raises SystemExit, which the except-branch does not
catch, so a staging failure exits the module directly. -/
def deployTry (p : Params) (env : Env) (st0 : St) (current_version : Option String) :
    St × Except String DeployResult :=
  let dl := download_artifact p env st0
  match dl.2 with
  | Except.error m => (dl.1, Except.error m)
  | Except.ok _ => deploySwitched p env (create_symlink p dl.1) current_version

/-- deploy, lines 279-349: read the pre-deploy version, short-circuit when
the target version directory exists and is already current, otherwise run
the staged pipeline. -/
def deploy (p : Params) (env : Env) (st0 : St) : St × Except String DeployResult :=
  let current_version := get_current_version st0.fs
  if st0.fs.hasRelease p.version && (current_version == some p.version) then
    (st0, Except.ok
      { changed := false
        version_deployed := some p.version
        rollback_occurred := false
        health_check_status := "Already deployed"
        previous_version := none })
  else deployTry p env st0 current_version

/-! Helper lemmas about the individual operations. -/

theorem download_artifact_curr (p : Params) (env : Env) (st : St) :
    ((download_artifact p env st).1).fs.curr = st.fs.curr := by
  cases h1 : optTruthy p.artifact_url <;>
  cases h2 : st.fs.hasRelease p.version <;>
  cases h3 : env.downloadOk <;>
  cases h4 : env.extractOk <;>
  simp [download_artifact, h1, h2, h3, h4]

theorem download_artifact_ok (p : Params) (env : Env) (st : St)
    (h3 : env.downloadOk = true) (h4 : env.extractOk = true) :
    (download_artifact p env st).2 = Except.ok () := by
  cases h1 : optTruthy p.artifact_url <;>
  cases h2 : st.fs.hasRelease p.version <;>
  simp [download_artifact, h1, h2, h3, h4]

theorem download_artifact_skip (p : Params) (env : Env) (st : St)
    (h : p.artifact_url = none) : download_artifact p env st = (st, Except.ok ()) := by
  simp [download_artifact, h, optTruthy]

theorem download_artifact_hasRelease_ne (p : Params) (env : Env) (st : St) (v : String)
    (hv : v ≠ p.version) :
    ((download_artifact p env st).1).fs.hasRelease v = st.fs.hasRelease v := by
  have hb : (p.version == v) = false := by simp [Ne.symm hv]
  cases h1 : optTruthy p.artifact_url <;>
  cases h2 : st.fs.hasRelease p.version <;>
  cases h3 : env.downloadOk <;>
  cases h4 : env.extractOk <;>
  simp [download_artifact, h1, h2, h3, h4] <;>
  simp [FSState.hasRelease, List.any_append, hb]

theorem switchFs_curr (v : String) (fs : FSState) : (switchFs v fs).curr = Curr.link v := by
  cases h : fs.curr <;> simp [switchFs, switchOps, h, applyFsOp]

theorem switchFs_releases (v : String) (fs : FSState) : (switchFs v fs).releases = fs.releases := by
  cases h : fs.curr <;> simp [switchFs, switchOps, h, applyFsOp]

theorem create_symlink_curr (p : Params) (st : St) :
    ((create_symlink p st).fs).curr = Curr.link p.version := by
  simp [create_symlink, switchFs_curr]

theorem create_symlink_releases (p : Params) (st : St) :
    ((create_symlink p st).fs).releases = st.fs.releases := by
  simp [create_symlink, switchFs_releases]

theorem restart_service_fs (p : Params) (env : Env) (st : St) :
    ((restart_service p env st).1).fs = st.fs := by
  cases h1 : optTruthy p.service_name <;> cases h2 : env.restartOk <;>
  simp [restart_service, h1, h2]

theorem restart_service_true (p : Params) (env : Env) (st : St)
    (h2 : env.restartOk = true) (h3 : env.isActiveOk = true) :
    (restart_service p env st).2 = true := by
  cases h1 : optTruthy p.service_name <;> simp [restart_service, h1, h2, h3]

theorem restart_service_none (p : Params) (env : Env) (st : St)
    (h : p.service_name = none) : restart_service p env st = (st, true) := by
  simp [restart_service, h, optTruthy]

theorem health_check_run (p : Params) (env : Env) (st : St) (h : p.health_check_url ≠ "") :
    health_check p env st =
      ({ st with events := st.events ++ [Event.probe] },
        (env.healthProbe,
          if env.healthProbe then "Health check passed" else "Health check failed")) := by
  cases hp : env.healthProbe <;> simp [health_check, h, hp]

theorem health_check_skip (p : Params) (env : Env) (st : St) (h : p.health_check_url = "") :
    health_check p env st = (st, (true, "No health check URL provided")) := by
  simp [health_check, h]

theorem rollback_missing_false (p : Params) (env : Env) (st : St) (pv : String)
    (h : st.fs.hasRelease pv = false) : rollback p env st (some pv) = (st, false) := by
  cases h1 : optTruthy (some pv) <;> simp [rollback, h1, h]

theorem rollback_found (p : Params) (env : Env) (st : St) (pv : String)
    (hpv : pv ≠ "") (h : st.fs.hasRelease pv = true) :
    (rollback p env st (some pv)).2 = true ∧
    ((rollback p env st (some pv)).1).fs.curr = Curr.link pv ∧
    ((rollback p env st (some pv)).1).fs.releases = st.fs.releases := by
  have h1 : optTruthy (some pv) = true := by simp [optTruthy, hpv]
  simp [rollback, h1, h, restart_service_fs, switchFs_curr, switchFs_releases]

theorem deleteOldLoop_noFail (env : Env) (hrm : ∀ v, env.rmtreeFails v = false) :
    ∀ (l : List (String × Nat)) (st : St),
      (deleteOldLoop env l st).2 = Except.ok () ∧
      ((deleteOldLoop env l st).1).fs.curr = st.fs.curr ∧
      ((deleteOldLoop env l st).1).changed = st.changed := by
  intro l
  induction l with
  | nil => intro st; simp [deleteOldLoop]
  | cons x rest ih =>
    intro st
    obtain ⟨v, m⟩ := x
    simpa [deleteOldLoop, hrm v] using ih _

theorem cleanup_noFail (p : Params) (env : Env) (st : St)
    (hrm : ∀ v, env.rmtreeFails v = false) :
    (cleanup_old_versions p env st).2 = Except.ok () ∧
    ((cleanup_old_versions p env st).1).fs.curr = st.fs.curr ∧
    ((cleanup_old_versions p env st).1).changed = st.changed :=
  deleteOldLoop_noFail env hrm _ st

theorem finishDeploy_noFail (p : Params) (env : Env) (st : St) (cur : Option String)
    (rb : Bool) (status : String) (hrm : ∀ v, env.rmtreeFails v = false) :
    (finishDeploy p env st cur rb status).2 =
      Except.ok
        { changed := st.changed
          version_deployed := if rb then cur else some p.version
          rollback_occurred := rb
          health_check_status := status
          previous_version := if rb && optTruthy cur then cur else none } ∧
    ((finishDeploy p env st cur rb status).1).fs.curr = st.fs.curr := by
  obtain ⟨h1, h2, h3⟩ := cleanup_noFail p env st hrm
  simp [finishDeploy, h1, h2, h3]

theorem finishDeploy_cleanupFail (p : Params) (env : Env) (st : St) (cur : Option String)
    (rb : Bool) (status : String) (m : String)
    (h : (cleanup_old_versions p env st).2 = Except.error m) :
    (finishDeploy p env st cur rb status).2 = Except.error m := by
  simp [finishDeploy, h]

theorem deploy_not_idem (p : Params) (env : Env) (st0 : St)
    (h : (st0.fs.hasRelease p.version && (get_current_version st0.fs == some p.version)) = false) :
    deploy p env st0 = deployTry p env st0 (get_current_version st0.fs) := by
  simp [deploy, h]

theorem deployTry_staged (p : Params) (env : Env) (st0 : St) (cv : Option String)
    (h : (download_artifact p env st0).2 = Except.ok ()) :
    deployTry p env st0 cv =
      deploySwitched p env (create_symlink p (download_artifact p env st0).1) cv := by
  simp [deployTry, h]

theorem deploySwitched_restarted (p : Params) (env : Env) (st2 : St) (cv : Option String)
    (h : (restart_service p env st2).2 = true) :
    deploySwitched p env st2 cv = deployHealth p env (restart_service p env st2).1 cv := by
  simp [deploySwitched, h]

theorem restart_service_changed (p : Params) (env : Env) (st : St) :
    ((restart_service p env st).1).changed = st.changed := by
  cases h1 : optTruthy p.service_name <;> cases h2 : env.restartOk <;>
  simp [restart_service, h1, h2]

theorem create_symlink_hasRelease (p : Params) (st : St) (v : String) :
    ((create_symlink p st).fs).hasRelease v = st.fs.hasRelease v := by
  simp [FSState.hasRelease, create_symlink_releases]

theorem deployHealth_pass (p : Params) (env : Env) (st3 : St) (cv : Option String)
    (hurl : p.health_check_url ≠ "") (hhp : env.healthProbe = true) :
    deployHealth p env st3 cv =
      finishDeploy p env { st3 with events := st3.events ++ [Event.probe] } cv false
        "Health check passed" := by
  simp [deployHealth, health_check_run p env st3 hurl, hhp]

theorem deployHealth_skip (p : Params) (env : Env) (st3 : St) (cv : Option String)
    (hurl : p.health_check_url = "") :
    deployHealth p env st3 cv =
      finishDeploy p env st3 cv false "No health check URL provided" := by
  simp [deployHealth, health_check_skip p env st3 hurl]

theorem deployHealth_fail_rollback_missing (p : Params) (env : Env) (st3 : St) (pv : String)
    (hurl : p.health_check_url ≠ "") (hhp : env.healthProbe = false)
    (hrb : p.rollback_on_failure = true)
    (hmiss : st3.fs.hasRelease pv = false) :
    deployHealth p env st3 (some pv) =
      finishDeploy p env { st3 with events := st3.events ++ [Event.probe] } (some pv) false
        ("Health check failed" ++ " - Rollback failed") := by
  have e5 := rollback_missing_false p env { st3 with events := st3.events ++ [Event.probe] } pv hmiss
  simp [deployHealth, health_check_run p env st3 hurl, hhp, hrb, e5]

theorem deployHealth_fail_rollback_found (p : Params) (env : Env) (st3 : St) (pv : String)
    (hurl : p.health_check_url ≠ "") (hhp : env.healthProbe = false)
    (hrb : p.rollback_on_failure = true)
    (hpv : pv ≠ "") (hfound : st3.fs.hasRelease pv = true) :
    deployHealth p env st3 (some pv) =
      finishDeploy p env
        (rollback p env { st3 with events := st3.events ++ [Event.probe] } (some pv)).1 (some pv)
        true ("Health check failed" ++ " - Rolled back to previous version") := by
  have h2 :=
    (rollback_found p env { st3 with events := st3.events ++ [Event.probe] } pv hpv hfound).1
  simp [deployHealth, health_check_run p env st3 hurl, hhp, hrb, h2]

theorem rollback_changed (p : Params) (env : Env) (st : St) (prev : Option String) :
    ((rollback p env st prev).1).changed = st.changed := by
  cases h1 : optTruthy prev <;> simp [rollback, h1]
  cases h2 : st.fs.hasRelease (prev.getD "") <;>
  simp [h2, restart_service_changed]

/-! Concrete instances used by the claim-level theorems. -/

/-- Oracle where every external step succeeds and no rmtree fails. -/
def envAllOk : Env :=
  { downloadOk := true, extractOk := true, restartOk := true, isActiveOk := true,
    healthProbe := true, rmtreeFails := fun _ => false, now := 10 }

/-- Same oracle, but the health probe never observes a 200 response. -/
def envHealthFail : Env := { envAllOk with healthProbe := false }

/-- Same oracle, but wget fails. -/
def envDownloadFail : Env := { envAllOk with downloadOk := false }

/-- Same oracle, but systemctl restart fails. -/
def envRestartFail : Env := { envAllOk with restartOk := false }

/-- Same oracle, but shutil.rmtree fails on the directory of v1. -/
def envRmtreeFail : Env := { envAllOk with rmtreeFails := fun v => v == "v1" }

/-- Typical module parameters: deploy v2, default health URL, rollback on,
keep 5 versions, no artifact URL and no service. -/
def baseParams : Params :=
  { app_name := "my-app", app_path := "/opt/my-app", version := "v2",
    artifact_url := none, health_check_url := "http://localhost:8080/health",
    health_check_timeout := 300, rollback_on_failure := true, keep_versions := 5,
    service_name := none }

/-- One staged release v1 that is also current. -/
def stOneRelease : St :=
  { fs := { releases := [("v1", 1)], curr := Curr.link "v1" },
    changed := false, events := [] }

/-- Releases v1 and v2 on disk, current pointing at v2. -/
def stTwoReleases : St :=
  { fs := { releases := [("v1", 1), ("v2", 2)], curr := Curr.link "v2" },
    changed := false, events := [] }

/-- Current still points at v1 but the v1 directory is gone. -/
def stPrevMissing : St :=
  { fs := { releases := [], curr := Curr.link "v1" },
    changed := false, events := [] }

/-- Five staged releases v1..v5 (oldest to newest mtime), current at v1. -/
def stFiveReleases : St :=
  { fs := { releases := [("v1", 1), ("v2", 2), ("v3", 3), ("v4", 4), ("v5", 5)],
            curr := Curr.link "v1" },
    changed := false, events := [] }

/-- Deploy v6 while keeping only 2 versions. -/
def pRetention : Params := { baseParams with version := "v6", keep_versions := 2 }

/-- Deploy v1, which is already staged and current in stOneRelease. -/
def pAlready : Params := { baseParams with version := "v1" }

/-- Parameters with an artifact URL, so staging actually downloads. -/
def pArtifact : Params :=
  { baseParams with artifact_url := some "https://releases.company.com/my-app-1.2.3.tar.gz" }

/-- Parameters with a systemd service configured. -/
def pService : Params := { baseParams with service_name := some "my-app" }

/-- Deploy v3 with no health URL, keeping a single version. -/
def pNoChecks : Params :=
  { baseParams with version := "v3", health_check_url := "", keep_versions := 1 }

/-- Caller options that omit every optional key. -/
def rawDefaults : RawParams :=
  { app_name := "my-app", app_path := "/opt/my-app", version := "v2",
    artifact_url := none, health_check_url := none, health_check_timeout := none,
    rollback_on_failure := none, keep_versions := none, service_name := none }

/-- Filesystem with v1 staged and current, used for the switch traces. -/
def fsLinked : FSState := { releases := [("v1", 1)], curr := Curr.link "v1" }

/-- Releases v1 and v2 on disk and no current pointer at all. -/
def stTwoNoCurr : St :=
  { fs := { releases := [("v1", 1), ("v2", 2)], curr := Curr.absent },
    changed := false, events := [] }

/-! Claim-level theorems. -/

/-- Claim C1: the claim says the retention step never deletes the release
directory the current pointer resolves to. The code has no such protection:
deploying v6 over five staged releases with keep_versions 2 and a failing
health check rolls back to v1, and the cleanup that follows deletes the v1
directory anyway, leaving the current symlink dangling at v1 while the run
still reports a successful rollback. -/
theorem C1_retention_deletes_current_target :
    (deploy pRetention envHealthFail stFiveReleases).2 =
      Except.ok
        { changed := true, version_deployed := some "v1", rollback_occurred := true,
          health_check_status := "Health check failed - Rolled back to previous version",
          previous_version := some "v1" } ∧
    get_current_version ((deploy pRetention envHealthFail stFiveReleases).1).fs = some "v1" ∧
    ((deploy pRetention envHealthFail stFiveReleases).1).fs.hasRelease "v1" = false :=
  ⟨rfl, rfl, rfl⟩

/-- Claim C3 counterexample: the claim says the pointer switch never passes
through an instant with no current version. The switch on a state whose
current entry is a symlink is remove-then-create: its observable trace
contains the intermediate state whose current entry is absent, where
get_current_version is none. -/
theorem C3_counterexample :
    switchOps "v2" fsLinked = [FsOp.removeLink, FsOp.symlinkTo "v2"] ∧
    switchTrace "v2" fsLinked =
      [fsLinked, { fsLinked with curr := Curr.absent },
        { fsLinked with curr := Curr.link "v2" }] ∧
    get_current_version { fsLinked with curr := Curr.absent } = none :=
  ⟨rfl, rfl, rfl⟩

/-- Claim C3, amended: the switch used by create_symlink and by the repoint
inside rollback is delete-then-create, so whenever a current symlink exists
before the switch, the observable trace is exactly initial state, a state
with no current entry, final state. -/
theorem C3_switch_passes_through_empty (fs : FSState) (v w : String)
    (h : fs.curr = Curr.link w) :
    switchTrace v fs =
      [fs, { fs with curr := Curr.absent }, { fs with curr := Curr.link v }] := by
  obtain ⟨rel, cur⟩ := fs
  cases cur with
  | absent => exact absurd h (by simp)
  | dir => exact absurd h (by simp)
  | link t => rfl

/-- Claim C3 witness: the amended switch-trace theorem applied to the state
with v1 current and target v2. -/
theorem C3_witness :
    fsLinked.curr = Curr.link "v1" ∧
    switchTrace "v2" fsLinked =
      [fsLinked, { fsLinked with curr := Curr.absent },
        { fsLinked with curr := Curr.link "v2" }] :=
  ⟨rfl, C3_switch_passes_through_empty fsLinked "v2" "v1" rfl⟩

/-- Claim C5 counterexample: the claim says the rollback result is true iff
both the repoint and the restart succeeded. With a configured service and a
failing systemctl restart, rollback still returns true. -/
theorem C5_counterexample :
    (rollback pService envRestartFail stTwoReleases (some "v1")).2 = true ∧
    (restart_service pService envRestartFail stTwoReleases).2 = false :=
  ⟨rfl, rfl⟩

/-- Claim C5, amended: rollback returns false with no state change when the
previous version is falsy or its directory is missing; otherwise it repoints
current to the previous version, invokes the restart but discards its
result, and returns true regardless of the restart outcome. -/
theorem C5_rollback_ignores_restart (p : Params) (env : Env) (st : St)
    (prev : Option String) :
    (optTruthy prev = false → rollback p env st prev = (st, false)) ∧
    (∀ pv : String, prev = some pv → st.fs.hasRelease pv = false →
       rollback p env st prev = (st, false)) ∧
    (∀ pv : String, prev = some pv → pv ≠ "" → st.fs.hasRelease pv = true →
       (rollback p env st prev).2 = true ∧
       ((rollback p env st prev).1).fs.curr = Curr.link pv ∧
       ((rollback p env st prev).1).fs.releases = st.fs.releases) := by
  refine ⟨?_, ?_, ?_⟩
  · intro h; simp [rollback, h]
  · intro pv hp h; subst hp; exact rollback_missing_false p env st pv h
  · intro pv hp hne h; subst hp; exact rollback_found p env st pv hne h

/-- Claim C5 witness: the amended rollback theorem applied to the state with
v1 on disk while the restart oracle fails. -/
theorem C5_witness :
    stTwoReleases.fs.hasRelease "v1" = true ∧
    (rollback pService envRestartFail stTwoReleases (some "v1")).2 = true ∧
    ((rollback pService envRestartFail stTwoReleases (some "v1")).1).fs.curr =
      Curr.link "v1" :=
  ⟨rfl,
    ((C5_rollback_ignores_restart pService envRestartFail stTwoReleases (some "v1")).2.2
      "v1" rfl (by decide) rfl).1,
    ((C5_rollback_ignores_restart pService envRestartFail stTwoReleases (some "v1")).2.2
      "v1" rfl (by decide) rfl).2.1⟩

/-- Claim C6 counterexample: the claim says a failed download leaves no
partially-extracted directory behind. After a failed wget for v2, staging
fails but the freshly created releases/v2 directory is still on disk. -/
theorem C6_counterexample :
    (download_artifact pArtifact envDownloadFail stOneRelease).2 =
      Except.error "Failed to download artifact" ∧
    ((download_artifact pArtifact envDownloadFail stOneRelease).1).fs.hasRelease "v2" =
      true :=
  ⟨rfl, rfl⟩

/-- Claim C6, amended: when the artifact URL is truthy and the version is
not yet staged, a failed download or extraction makes the module fail
fatally with the corresponding message, but the releases directory created
for this attempt is left in place, not cleaned up. -/
theorem C6_staging_failure_leaves_directory (p : Params) (env : Env) (st : St)
    (h1 : optTruthy p.artifact_url = true)
    (h2 : st.fs.hasRelease p.version = false) :
    (env.downloadOk = false →
       (download_artifact p env st).2 = Except.error "Failed to download artifact" ∧
       ((download_artifact p env st).1).fs.hasRelease p.version = true) ∧
    (env.downloadOk = true → env.extractOk = false →
       (download_artifact p env st).2 = Except.error "Failed to extract artifact" ∧
       ((download_artifact p env st).1).fs.hasRelease p.version = true) := by
  constructor
  · intro h3
    refine ⟨?_, ?_⟩
    · simp [download_artifact, h1, h2, h3]
    · simp [download_artifact, h1, h2, h3]
      simp [FSState.hasRelease, List.any_append]
  · intro h3 h4
    refine ⟨?_, ?_⟩
    · simp [download_artifact, h1, h2, h3, h4]
    · simp [download_artifact, h1, h2, h3, h4]
      simp [FSState.hasRelease, List.any_append]

/-- Claim C6 witness: the amended staging theorem applied to the failing
download of v2 over a fresh state. -/
theorem C6_witness :
    optTruthy pArtifact.artifact_url = true ∧
    (download_artifact pArtifact envDownloadFail stOneRelease).2 =
      Except.error "Failed to download artifact" ∧
    ((download_artifact pArtifact envDownloadFail stOneRelease).1).fs.hasRelease "v2" =
      true :=
  ⟨rfl,
    ((C6_staging_failure_leaves_directory pArtifact envDownloadFail stOneRelease
        rfl rfl).1 rfl).1,
    ((C6_staging_failure_leaves_directory pArtifact envDownloadFail stOneRelease
        rfl rfl).1 rfl).2⟩

/-- Claim C7: when the target version directory exists and the current
pointer already resolves to the target version, deploy returns immediately
with changed false and status Already deployed, leaving the state untouched,
so no staging, switching, restart, health check or rollback is invoked. -/
theorem C7_deploy_idempotent (p : Params) (env : Env) (st : St)
    (h1 : st.fs.hasRelease p.version = true)
    (h2 : get_current_version st.fs = some p.version) :
    deploy p env st =
      (st, Except.ok
        { changed := false, version_deployed := some p.version,
          rollback_occurred := false, health_check_status := "Already deployed",
          previous_version := none }) := by
  simp [deploy, h1, h2]

/-- Claim C7 witness: redeploying the already-current v1 returns the
unchanged state and the Already deployed record. -/
theorem C7_witness :
    stOneRelease.fs.hasRelease "v1" = true ∧
    deploy pAlready envAllOk stOneRelease =
      (stOneRelease, Except.ok
        { changed := false, version_deployed := some "v1", rollback_occurred := false,
          health_check_status := "Already deployed", previous_version := none }) :=
  ⟨rfl, C7_deploy_idempotent pAlready envAllOk stOneRelease rfl rfl⟩

/-- Claim C8 counterexample: the claim says an absent health_check_url
disables the health check. An absent option resolves to the default URL
http://localhost:8080/health, and the health check then issues probes and
can fail, so absence does not disable it. -/
theorem C8_counterexample :
    (resolveParams rawDefaults).health_check_url = "http://localhost:8080/health" ∧
    (health_check (resolveParams rawDefaults) envHealthFail stOneRelease).2 =
      (false, "Health check failed") ∧
    ((health_check (resolveParams rawDefaults) envHealthFail stOneRelease).1).events =
      stOneRelease.events ++ [Event.probe] :=
  ⟨rfl, rfl, rfl⟩

/-- Claim C8, amended: only an explicitly empty health_check_url disables
the check, returning healthy true immediately with the skip status and no
probe request; an absent option resolves to the default URL, so the check
runs. -/
theorem C8_only_empty_url_disables (p : Params) (env : Env) (st : St) :
    (p.health_check_url = "" →
       health_check p env st = (st, (true, "No health check URL provided"))) ∧
    (∀ r : RawParams, r.health_check_url = none →
       (resolveParams r).health_check_url = "http://localhost:8080/health") := by
  constructor
  · exact health_check_skip p env st
  · intro r hr; simp [resolveParams, hr]

/-- Claim C8 witness: the empty URL of pNoChecks skips the probe, and the
absent URL of rawDefaults resolves to the default. -/
theorem C8_witness :
    pNoChecks.health_check_url = "" ∧
    health_check pNoChecks envAllOk stOneRelease =
      (stOneRelease, (true, "No health check URL provided")) ∧
    (resolveParams rawDefaults).health_check_url = "http://localhost:8080/health" :=
  ⟨rfl,
    (C8_only_empty_url_disables pNoChecks envAllOk stOneRelease).1 rfl,
    (C8_only_empty_url_disables pNoChecks envAllOk stOneRelease).2 rawDefaults rfl⟩

/-- Claim C10: whenever the releases directory for the target version
already exists, download_artifact returns success immediately and performs
no side effect at all, regardless of the directory contents. -/
theorem C10_existing_dir_short_circuits (p : Params) (env : Env) (st : St)
    (h : st.fs.hasRelease p.version = true) :
    download_artifact p env st = (st, Except.ok ()) := by
  cases h1 : optTruthy p.artifact_url <;> simp [download_artifact, h1, h]

/-- Claim C10 witness: the directory left behind by a failed download of v2
counts as staged, so the next staging call for v2 is an immediate no-op even
though its oracle would succeed. -/
theorem C10_witness :
    ((download_artifact pArtifact envDownloadFail stOneRelease).1).fs.hasRelease "v2" =
      true ∧
    download_artifact pArtifact envAllOk
        (download_artifact pArtifact envDownloadFail stOneRelease).1 =
      ((download_artifact pArtifact envDownloadFail stOneRelease).1, Except.ok ()) :=
  ⟨rfl, C10_existing_dir_short_circuits pArtifact envAllOk _ rfl⟩

/-- Claim C9 counterexample: the claim says a deletion failure during
retention cleanup never blocks the deployment result. When rmtree fails on
the pruned v1, the exception escapes deploy and no result record is
returned. -/
theorem C9_counterexample :
    (deploy pNoChecks envRmtreeFail stTwoNoCurr).2 =
      Except.error "shutil.rmtree failed: v1" :=
  rfl

/-- Claim C9, amended: a deletion failure during retention cleanup is fatal.
Cleanup runs outside the try-block and rmtree is not wrapped, so on a run
that reaches cleanup (shown for a first deployment with no artifact URL, no
service and no health URL), a cleanup error becomes the outcome of deploy
instead of the result record. -/
theorem C9_cleanup_error_is_fatal (p : Params) (env : Env) (st : St) (m : String)
    (h1 : get_current_version st.fs = none)
    (h2 : p.artifact_url = none)
    (h3 : p.service_name = none)
    (h4 : p.health_check_url = "")
    (h5 : (cleanup_old_versions p env (create_symlink p st)).2 = Except.error m) :
    (deploy p env st).2 = Except.error m := by
  have hin : (st.fs.hasRelease p.version &&
      (get_current_version st.fs == some p.version)) = false := by
    rw [h1]; simp
  rw [deploy_not_idem p env st hin, h1,
      deployTry_staged p env st none (by rw [download_artifact_skip p env st h2]),
      download_artifact_skip p env st h2]
  show (deploySwitched p env (create_symlink p st) none).2 = Except.error m
  rw [deploySwitched_restarted p env (create_symlink p st) none
        (by rw [restart_service_none p env (create_symlink p st) h3]),
      restart_service_none p env (create_symlink p st) h3]
  show (deployHealth p env (create_symlink p st) none).2 = Except.error m
  rw [deployHealth_skip p env (create_symlink p st) none h4]
  exact finishDeploy_cleanupFail p env (create_symlink p st) none false
    "No health check URL provided" m h5

/-- Claim C9 witness: the amended cleanup-fatality theorem applied to the
deployment of v3 over v1 and v2 with keep_versions 1 and rmtree failing on
v1. -/
theorem C9_witness :
    (cleanup_old_versions pNoChecks envRmtreeFail
        (create_symlink pNoChecks stTwoNoCurr)).2 =
      Except.error "shutil.rmtree failed: v1" ∧
    (deploy pNoChecks envRmtreeFail stTwoNoCurr).2 =
      Except.error "shutil.rmtree failed: v1" :=
  ⟨rfl, C9_cleanup_error_is_fatal pNoChecks envRmtreeFail stTwoNoCurr _ rfl rfl rfl rfl rfl⟩

theorem finishDeploy_rollback_curr (p : Params) (env : Env) (st : St) (pv : String)
    (status : String) (hrm : ∀ v, env.rmtreeFails v = false)
    (hpvne : pv ≠ "") (hfound : st.fs.hasRelease pv = true) :
    get_current_version
      ((finishDeploy p env (rollback p env st (some pv)).1 (some pv) true status).1).fs =
      some pv := by
  have h1 := (finishDeploy_noFail p env (rollback p env st (some pv)).1 (some pv) true
    status hrm).2
  have h2 := (rollback_found p env st pv hpvne hfound).2.1
  simp [get_current_version, h1, h2]

/-- Claim C2 counterexample: the claim says that when a rollback is
attempted and fails, the run ends fatally. Deploying v2 while current points
at the vanished v1 makes the health check fail and the rollback attempt
fail, yet deploy returns an ordinary non-fatal result record with the
failure only noted in the status string. -/
theorem C2_counterexample :
    (deploy baseParams envHealthFail stPrevMissing).2 =
      Except.ok
        { changed := true, version_deployed := some "v2", rollback_occurred := false,
          health_check_status := "Health check failed - Rollback failed",
          previous_version := none } :=
  rfl

/-- Claim C2, amended: when the health check fails and the rollback attempt
fails because the previous release directory is gone, the run does not end
fatally: deploy returns a normal result record with rollback_occurred false
and the suffix Rollback failed appended to the health status; only the
branch with rollback disabled or no previous version calls fail_json. -/
theorem C2_rollback_failure_nonfatal (p : Params) (env : Env) (st0 : St) (pv : String)
    (hcur : get_current_version st0.fs = some pv)
    (hne : pv ≠ p.version)
    (hmiss : st0.fs.hasRelease pv = false)
    (hdl : env.downloadOk = true) (hex : env.extractOk = true)
    (hrs : env.restartOk = true) (hia : env.isActiveOk = true)
    (hurl : p.health_check_url ≠ "") (hhp : env.healthProbe = false)
    (hrb : p.rollback_on_failure = true)
    (hrm : ∀ v, env.rmtreeFails v = false) :
    (deploy p env st0).2 =
      Except.ok
        { changed := true, version_deployed := some p.version, rollback_occurred := false,
          health_check_status := "Health check failed - Rollback failed",
          previous_version := none } := by
  have hin : (st0.fs.hasRelease p.version &&
      (get_current_version st0.fs == some p.version)) = false := by
    rw [hcur]; simp [hne]
  have hdok : (download_artifact p env st0).2 = Except.ok () :=
    download_artifact_ok p env st0 hdl hex
  rw [deploy_not_idem p env st0 hin, hcur,
      deployTry_staged p env st0 (some pv) hdok,
      deploySwitched_restarted p env (create_symlink p (download_artifact p env st0).1)
        (some pv)
        (restart_service_true p env (create_symlink p (download_artifact p env st0).1)
          hrs hia)]
  have hm2 : ((restart_service p env
      (create_symlink p (download_artifact p env st0).1)).1).fs.hasRelease pv = false := by
    rw [restart_service_fs, create_symlink_hasRelease,
        download_artifact_hasRelease_ne p env st0 pv hne]
    exact hmiss
  rw [deployHealth_fail_rollback_missing p env
        (restart_service p env (create_symlink p (download_artifact p env st0).1)).1 pv
        hurl hhp hrb hm2,
      (finishDeploy_noFail p env _ (some pv) false
        ("Health check failed" ++ " - Rollback failed") hrm).1]
  simp [restart_service_changed, create_symlink,
        show ("Health check failed" ++ " - Rollback failed" : String) =
          "Health check failed - Rollback failed" from rfl]

/-- Claim C2 witness: the amended non-fatality theorem applied to the deploy
of v2 over a dangling current pointer at v1. -/
theorem C2_witness :
    get_current_version stPrevMissing.fs = some "v1" ∧
    stPrevMissing.fs.hasRelease "v1" = false ∧
    (deploy baseParams envHealthFail stPrevMissing).2 =
      Except.ok
        { changed := true, version_deployed := some "v2", rollback_occurred := false,
          health_check_status := "Health check failed - Rollback failed",
          previous_version := none } :=
  ⟨rfl, rfl,
    C2_rollback_failure_nonfatal baseParams envHealthFail stPrevMissing "v1"
      rfl (by decide) rfl rfl rfl rfl rfl (by decide) rfl rfl (fun _ => rfl)⟩

/-- Claim C4: when the health check fails, rollback_on_failure is enabled
and the previous version exists on disk, the run ends with the current
pointer at the previous version, rollback_occurred true and version_deployed
equal to the previous version; when the health check passes, version_deployed
is the target version and no rollback occurs. -/
theorem C4_rollback_restores_previous (p : Params) (env : Env) (st0 : St) (pv : String)
    (hcur : get_current_version st0.fs = some pv)
    (hne : pv ≠ p.version) (hpvne : pv ≠ "")
    (hpv : st0.fs.hasRelease pv = true)
    (hdl : env.downloadOk = true) (hex : env.extractOk = true)
    (hrs : env.restartOk = true) (hia : env.isActiveOk = true)
    (hurl : p.health_check_url ≠ "") (hrb : p.rollback_on_failure = true)
    (hrm : ∀ v, env.rmtreeFails v = false) :
    (env.healthProbe = false →
       (deploy p env st0).2 =
         Except.ok
           { changed := true, version_deployed := some pv, rollback_occurred := true,
             health_check_status := "Health check failed - Rolled back to previous version",
             previous_version := some pv } ∧
       get_current_version ((deploy p env st0).1).fs = some pv) ∧
    (env.healthProbe = true →
       (deploy p env st0).2 =
         Except.ok
           { changed := true, version_deployed := some p.version,
             rollback_occurred := false, health_check_status := "Health check passed",
             previous_version := none }) := by
  have hin : (st0.fs.hasRelease p.version &&
      (get_current_version st0.fs == some p.version)) = false := by
    rw [hcur]; simp [hne]
  have hdok : (download_artifact p env st0).2 = Except.ok () :=
    download_artifact_ok p env st0 hdl hex
  have e0 : deploy p env st0 =
      deployHealth p env
        (restart_service p env (create_symlink p (download_artifact p env st0).1)).1
        (some pv) := by
    rw [deploy_not_idem p env st0 hin, hcur,
        deployTry_staged p env st0 (some pv) hdok,
        deploySwitched_restarted p env (create_symlink p (download_artifact p env st0).1)
          (some pv)
          (restart_service_true p env (create_symlink p (download_artifact p env st0).1)
            hrs hia)]
  have hfound : ((restart_service p env
      (create_symlink p (download_artifact p env st0).1)).1).fs.hasRelease pv = true := by
    rw [restart_service_fs, create_symlink_hasRelease,
        download_artifact_hasRelease_ne p env st0 pv hne]
    exact hpv
  constructor
  · intro hhp
    have e1 := deployHealth_fail_rollback_found p env
      (restart_service p env (create_symlink p (download_artifact p env st0).1)).1 pv
      hurl hhp hrb hpvne hfound
    have hopt : optTruthy (some pv) = true := by simp [optTruthy, hpvne]
    constructor
    · rw [e0, e1,
          (finishDeploy_noFail p env _ (some pv) true
            ("Health check failed" ++ " - Rolled back to previous version") hrm).1]
      simp [rollback_changed, restart_service_changed, create_symlink, hopt,
            show ("Health check failed" ++ " - Rolled back to previous version" : String) =
              "Health check failed - Rolled back to previous version" from rfl]
    · rw [e0, e1]
      exact finishDeploy_rollback_curr p env _ pv _ hrm hpvne hfound
  · intro hhp
    have e1 := deployHealth_pass p env
      (restart_service p env (create_symlink p (download_artifact p env st0).1)).1
      (some pv) hurl hhp
    rw [e0, e1,
        (finishDeploy_noFail p env _ (some pv) false "Health check passed" hrm).1]
    simp [restart_service_changed, create_symlink]

/-- Claim C4 witness: the rollback-correctness theorem applied to the deploy
of v2 over the healthy v1 with a failing health probe. -/
theorem C4_witness :
    get_current_version stOneRelease.fs = some "v1" ∧
    stOneRelease.fs.hasRelease "v1" = true ∧
    (deploy baseParams envHealthFail stOneRelease).2 =
      Except.ok
        { changed := true, version_deployed := some "v1", rollback_occurred := true,
          health_check_status := "Health check failed - Rolled back to previous version",
          previous_version := some "v1" } ∧
    get_current_version ((deploy baseParams envHealthFail stOneRelease).1).fs = some "v1" :=
  ⟨rfl, rfl,
    (C4_rollback_restores_previous baseParams envHealthFail stOneRelease "v1"
      rfl (by decide) (by decide) rfl rfl rfl rfl rfl (by decide) rfl (fun _ => rfl)).1 rfl⟩
